import Mathlib

/-!
Verification of the provisioning-UI contract of `esp32_stt/wifi_portal.h`.

The repository serves a single captive-portal HTML page whose client-side
script drives two HTTP exchanges: `GET /scan` (rendered as a list of
network rows) and `POST /save` (reflected as success/error banners).
We embed the script's handlers as pure transition functions on a record
`PortalState` capturing the DOM state the script reads and writes:
the two input fields, the networks list `div`, the scan button, and the
success/error banners.  Server responses are modelled as inductive data
(`ScanResponse`, `SaveResponse`), with the `failure` constructor standing
for the promise-rejection path (network error or `response.json()`
failing on a malformed body), i.e. the `.catch` handler.
-/

/-- A scanned network as produced by the `/scan` endpoint:
`{ssid: string, rssi: integer}` (wifi_portal.h line 169-173). -/
structure Network where
  ssid : String
  rssi : Int
deriving Repr, DecidableEq

/-- Outcome of the `/scan` fetch as seen by the script: either the
rejection path (network error or malformed JSON, handled by the
`.catch` at lines 183-186), or a parsed body whose `networks` field
may be absent (`none`) or an array. -/
inductive ScanResponse where
  | failure
  | ok (networks : Option (List Network))
deriving Repr, DecidableEq

/-- Outcome of the `/save` fetch as seen by the script: either the
rejection path (handled by the `.catch` at line 209), or a parsed body
`{success: boolean, message?: string}`. -/
inductive SaveResponse where
  | failure
  | ok (success : Bool) (message : Option String)
deriving Repr, DecidableEq

/-- One row appended to the `#networks` div.  `innerHTML` is the row's
markup text; `onclick` is `some s` when the row carries the click
handler `() => ssid.value = s` (line 174) and `none` for the
placeholder row, which is inserted as plain markup with no handler
(line 178). -/
structure Row where
  innerHTML : String
  onclick : Option String
deriving Repr, DecidableEq

/-- The DOM state the script reads and writes: the `#ssid` and
`#password` inputs, the `#networks` div (its child rows and whether its
`display` style is `block`), the `.scan-btn` label and disabled flag,
and the `#success` / `#error` banners (visibility, and the error
banner's text). -/
structure PortalState where
  ssidField : String
  passwordField : String
  networksRows : List Row
  networksDisplay : Bool
  scanBtnLabel : String
  scanBtnDisabled : Bool
  successDisplay : Bool
  errorDisplay : Bool
  errorText : String
deriving Repr, DecidableEq

/-- The page as served (lines 134-153): empty inputs, hidden empty
networks div, idle scan button, both banners hidden, error banner
prefilled with the generic label `❌ エラー`. -/
def initialState : PortalState where
  ssidField := ""
  passwordField := ""
  networksRows := []
  networksDisplay := false
  scanBtnLabel := "WiFiをスキャン"
  scanBtnDisabled := false
  successDisplay := false
  errorDisplay := false
  errorText := "❌ エラー"

/-- Synchronous prefix of `scanNetworks()` (lines 160-161): set the
button label to the scanning state and disable it before the fetch is
issued. -/
def scanStart (st : PortalState) : PortalState :=
  { st with scanBtnLabel := "スキャン中...", scanBtnDisabled := true }

/-- Row built for one network (lines 171-175):
`'<span>' + network.ssid + '</span><span class="signal">' + network.rssi + ' dBm</span>'`
with the click handler that writes `network.ssid` into `#ssid`. -/
def renderNetwork (n : Network) : Row where
  innerHTML :=
    "<span>" ++ n.ssid ++ "</span><span class=\"signal\">"
      ++ toString n.rssi ++ " dBm</span>"
  onclick := some n.ssid

/-- The single placeholder row `<div class="network-item">見つかりません</div>`
inserted when no networks are found (line 178); it has no click
handler. -/
def placeholderRow : Row where
  innerHTML := "見つかりません"
  onclick := none

/-- Completion of `scanNetworks()` (lines 164-186).  On the fulfilled
path (lines 165-182): clear the networks div, show it, then either map
each network to a row (when `data.networks && data.networks.length > 0`)
or insert the placeholder row, and restore the idle button.  On the
rejection path (lines 183-186): only restore the idle button. -/
def scanComplete (resp : ScanResponse) (st : PortalState) : PortalState :=
  match resp with
  | ScanResponse.failure =>
      { st with scanBtnLabel := "WiFiをスキャン", scanBtnDisabled := false }
  | ScanResponse.ok networks =>
      let rows :=
        match networks with
        | some ns =>
            if ns.length > 0 then ns.map renderNetwork else [placeholderRow]
        | none => [placeholderRow]
      { st with
          networksRows := rows
          networksDisplay := true
          scanBtnLabel := "WiFiをスキャン"
          scanBtnDisabled := false }

/-- Clicking a row runs its `onclick` handler if it has one: the
handler at line 174 writes the captured SSID into `#ssid` and touches
nothing else; a row without a handler leaves the state unchanged. -/
def clickRow (r : Row) (st : PortalState) : PortalState :=
  match r.onclick with
  | some s => { st with ssidField := s }
  | none => st

/-- The body of a `POST /save` request (lines 194-197). -/
structure SaveRequest where
  ssid : String
  password : String
deriving Repr, DecidableEq

/-- Browser-level constraint validation on form submission: `#ssid`
carries the `required` attribute (line 141) and `#password` does not
(line 146), so the browser blocks submission exactly when the SSID
input is empty; otherwise the `onsubmit` handler (lines 189-198) sends
the two field values as JSON. -/
def submitForm (st : PortalState) : Option SaveRequest :=
  if st.ssidField = "" then none
  else some { ssid := st.ssidField, password := st.passwordField }

/-- JavaScript `a || b` on an optional string field: the fallback is
taken when the field is absent or the empty string (both falsy). -/
def jsOr (m : Option String) (fallback : String) : String :=
  match m with
  | some s => if s = "" then fallback else s
  | none => fallback

/-- Response handling of the `onsubmit` chain (lines 199-209).
`success` truthy: show `#success`, hide `#error` (lines 201-203).
Otherwise: set the error text to `'❌ ' + (result.message || 'エラー')`
and show `#error` (lines 204-207).  Rejection path (line 209): only
show `#error`, leaving its text as it was. -/
def onSaveResult (resp : SaveResponse) (st : PortalState) : PortalState :=
  match resp with
  | SaveResponse.failure => { st with errorDisplay := true }
  | SaveResponse.ok success message =>
      if success then
        { st with successDisplay := true, errorDisplay := false }
      else
        { st with
            errorText := "❌ " ++ jsOr message "エラー"
            errorDisplay := true }

/-- Events the page's single event loop can process.  `scanClick` is a
click on the scan button, `scanResult` the settlement of an in-flight
`/scan` fetch, `saveResult` the settlement of an in-flight `/save`
fetch, `rowClick` a click on a rendered row, and `formSubmit` a form
submission attempt (which changes no DOM state; the request it may
emit is `submitForm`). -/
inductive Event where
  | scanClick
  | scanResult (resp : ScanResponse)
  | saveResult (resp : SaveResponse)
  | rowClick (r : Row)
  | formSubmit
deriving Repr, DecidableEq

/-- Whether an event is the settlement of the `/scan` fetch. -/
def Event.isScanResult : Event → Bool
  | Event.scanResult _ => true
  | _ => false

/-- One step of the event loop.  A click on a disabled button fires no
handler, so `scanClick` is a no-op while `scanBtnDisabled` holds. -/
def step (e : Event) (st : PortalState) : PortalState :=
  match e with
  | Event.scanClick => if st.scanBtnDisabled then st else scanStart st
  | Event.scanResult resp => scanComplete resp st
  | Event.saveResult resp => onSaveResult resp st
  | Event.rowClick r => clickRow r st
  | Event.formSubmit => st

/-- Run the event loop over a list of events. -/
def run (evs : List Event) (st : PortalState) : PortalState :=
  evs.foldl (fun s e => step e s) st

/-! ## Helper lemmas -/

/-- With at least one network, the rendered rows are exactly the map of
`renderNetwork` over the response's array. -/
theorem scanComplete_rows_pos (st : PortalState) (ns : List Network)
    (h : 0 < ns.length) :
    (scanComplete (ScanResponse.ok (some ns)) st).networksRows
      = ns.map renderNetwork := by
  simp [scanComplete, h]

/-- The save-response handler never touches the scan button. -/
theorem onSaveResult_scanBtn (resp : SaveResponse) (st : PortalState) :
    (onSaveResult resp st).scanBtnDisabled = st.scanBtnDisabled ∧
    (onSaveResult resp st).scanBtnLabel = st.scanBtnLabel := by
  cases resp with
  | failure => exact ⟨rfl, rfl⟩
  | ok s m => cases s <;> exact ⟨rfl, rfl⟩

/-- Clicking a row never touches the scan button. -/
theorem clickRow_scanBtn (r : Row) (st : PortalState) :
    (clickRow r st).scanBtnDisabled = st.scanBtnDisabled ∧
    (clickRow r st).scanBtnLabel = st.scanBtnLabel := by
  rcases hr : r.onclick with _ | s <;> simp [clickRow, hr]

/-- Any event other than the settlement of the scan fetch preserves a
disabled scan button and its label. -/
theorem step_preserves_scanning (st : PortalState) (e : Event)
    (he : e.isScanResult = false) (hd : st.scanBtnDisabled = true) :
    (step e st).scanBtnDisabled = true ∧
    (step e st).scanBtnLabel = st.scanBtnLabel := by
  cases e with
  | scanClick => simp [step, hd]
  | scanResult resp => simp [Event.isScanResult] at he
  | saveResult resp =>
      exact ⟨(onSaveResult_scanBtn resp st).1.trans hd,
             (onSaveResult_scanBtn resp st).2⟩
  | rowClick r =>
      exact ⟨(clickRow_scanBtn r st).1.trans hd, (clickRow_scanBtn r st).2⟩
  | formSubmit => exact ⟨hd, rfl⟩

/-- A trace free of scan settlements preserves a disabled scan button
and its label. -/
theorem run_preserves_scanning (evs : List Event) :
    ∀ st : PortalState, (∀ e ∈ evs, e.isScanResult = false) →
      st.scanBtnDisabled = true →
      (run evs st).scanBtnDisabled = true ∧
      (run evs st).scanBtnLabel = st.scanBtnLabel := by
  induction evs with
  | nil => exact fun st _ hd => ⟨hd, rfl⟩
  | cons e evs ih =>
      intro st h hd
      have he : e.isScanResult = false := h e (List.mem_cons_self e evs)
      have hrest : ∀ e2 ∈ evs, e2.isScanResult = false :=
        fun e2 he2 => h e2 (List.mem_cons_of_mem e he2)
      have hstep := step_preserves_scanning st e he hd
      have hrun := ih (step e st) hrest hstep.1
      exact ⟨hrun.1, hrun.2.trans hstep.2⟩

/-! ## Claims -/

/-- C1: for every `POST /save` response whose parsed body has
`success = true`, the submit handler shows the success banner and hides
the error banner. -/
theorem save_success_shows_success_hides_error
    (st : PortalState) (m : Option String) :
    (onSaveResult (SaveResponse.ok true m) st).successDisplay = true ∧
    (onSaveResult (SaveResponse.ok true m) st).errorDisplay = false :=
  ⟨rfl, rfl⟩

/-- C2: for every `POST /save` response whose parsed body has
`success = false`, the submit handler shows the error banner, its text
contains the response's `message` field when that field is present, and
it is the generic label `❌ エラー` when the field is absent. -/
theorem save_reject_shows_message_or_generic
    (st : PortalState) (m : Option String) :
    (onSaveResult (SaveResponse.ok false m) st).errorDisplay = true ∧
    (∀ s, m = some s →
      ∃ a b, (onSaveResult (SaveResponse.ok false m) st).errorText
        = a ++ s ++ b) ∧
    (m = none →
      (onSaveResult (SaveResponse.ok false m) st).errorText = "❌ エラー") := by
  refine ⟨rfl, ?_, ?_⟩
  · rintro s rfl
    by_cases h : s = ""
    · subst h
      exact ⟨"❌ ", "エラー", rfl⟩
    · exact ⟨"❌ ", "", by simp [onSaveResult, jsOr, h]⟩
  · rintro rfl
    rfl

/-- C2 witness: the concrete response of the spec's test 6 produces an
error text containing `bad password`. -/
theorem save_reject_shows_message_witness :
    ∃ a b, (onSaveResult (SaveResponse.ok false (some "bad password"))
      initialState).errorText = a ++ "bad password" ++ b :=
  (save_reject_shows_message_or_generic initialState
    (some "bad password")).2.1 "bad password" rfl

/-- C3: a well-formed scan response with `N ≥ 1` networks renders
exactly the `N` rows obtained by mapping `renderNetwork`, one per
entry in order; every such row is selectable (carries a click handler)
and its markup displays the entry's SSID and RSSI. -/
theorem scan_renders_each_network (st : PortalState) (ns : List Network)
    (h : 0 < ns.length) :
    (scanComplete (ScanResponse.ok (some ns)) st).networksRows
      = ns.map renderNetwork ∧
    (ns.map renderNetwork).length = ns.length ∧
    ∀ n ∈ ns, (renderNetwork n).onclick = some n.ssid ∧
      ∃ a b c, (renderNetwork n).innerHTML
        = a ++ n.ssid ++ b ++ toString n.rssi ++ c := by
  refine ⟨scanComplete_rows_pos st ns h, List.length_map ns renderNetwork, ?_⟩
  intro n _
  exact ⟨rfl,
    "<span>", "</span><span class=\"signal\">", " dBm</span>", rfl⟩

/-- C3 witness: a one-network response renders the single mapped row. -/
theorem scan_renders_each_network_witness :
    (scanComplete (ScanResponse.ok (some [Network.mk "home" (-42)]))
      initialState).networksRows
      = List.map renderNetwork [Network.mk "home" (-42)] :=
  (scan_renders_each_network initialState [Network.mk "home" (-42)]
    (by decide)).1

/-- C4: the browser-level required check blocks submission exactly when
the SSID input is empty, so no `/save` request is issued then; with a
non-empty SSID the request carries both field values, the password
field being allowed to be empty. -/
theorem empty_ssid_blocks_submit (st : PortalState) :
    (st.ssidField = "" → submitForm st = none) ∧
    (st.ssidField ≠ "" →
      submitForm st
        = some (SaveRequest.mk st.ssidField st.passwordField)) := by
  constructor
  · intro h
    simp [submitForm, h]
  · intro h
    simp [submitForm, h]

/-- C4 witness: the freshly served page (empty SSID) submits nothing;
filling only the SSID submits that SSID with an empty password. -/
theorem empty_ssid_blocks_submit_witness :
    submitForm initialState = none ∧
    submitForm { initialState with ssidField := "home" }
      = some (SaveRequest.mk "home" "") :=
  ⟨(empty_ssid_blocks_submit initialState).1 rfl,
   (empty_ssid_blocks_submit { initialState with ssidField := "home" }).2
     (by decide)⟩

/-- C5: every row rendered for a non-empty scan response comes from a
network of the response, and clicking it writes that network's SSID
into the SSID field while leaving the password field unchanged. -/
theorem row_click_sets_ssid_keeps_password
    (render_st click_st : PortalState) (ns : List Network) (r : Row)
    (hn : 0 < ns.length)
    (h : r ∈ (scanComplete (ScanResponse.ok (some ns))
      render_st).networksRows) :
    ∃ n, n ∈ ns ∧ r = renderNetwork n ∧
      (clickRow r click_st).ssidField = n.ssid ∧
      (clickRow r click_st).passwordField = click_st.passwordField := by
  rw [scanComplete_rows_pos render_st ns hn] at h
  obtain ⟨n, hmem, rfl⟩ := List.mem_map.mp h
  exact ⟨n, hmem, rfl, rfl, rfl⟩

/-- C5 witness: clicking the row rendered for the single network
`home` writes `home` into the SSID field of the fresh page and keeps
its empty password. -/
theorem row_click_sets_ssid_witness :
    ∃ n, n ∈ [Network.mk "home" (-42)] ∧
      renderNetwork (Network.mk "home" (-42)) = renderNetwork n ∧
      (clickRow (renderNetwork (Network.mk "home" (-42)))
        initialState).ssidField = n.ssid ∧
      (clickRow (renderNetwork (Network.mk "home" (-42)))
        initialState).passwordField = initialState.passwordField :=
  row_click_sets_ssid_keeps_password initialState initialState
    [Network.mk "home" (-42)] (renderNetwork (Network.mk "home" (-42)))
    (by decide) (by decide)

/-- C6 counterexample: after an earlier `success=false` response set the
message `bad password`, a transport failure on `/save` shows the error
banner still carrying that message — not the generic label with no
message detail. -/
theorem save_transport_failure_stale_message :
    (onSaveResult SaveResponse.failure
      (onSaveResult (SaveResponse.ok false (some "bad password"))
        initialState)).errorDisplay = true ∧
    (onSaveResult SaveResponse.failure
      (onSaveResult (SaveResponse.ok false (some "bad password"))
        initialState)).errorText = "❌ bad password" ∧
    (onSaveResult SaveResponse.failure
      (onSaveResult (SaveResponse.ok false (some "bad password"))
        initialState)).errorText ≠ "❌ エラー" := by
  refine ⟨rfl, rfl, by decide⟩

/-- C6 amended: on a transport-level failure of `/save` the handler
shows the error banner and writes no message text, so the banner
retains whatever text it had; on the freshly served page that text is
the generic label `❌ エラー`. -/
theorem save_transport_failure_generic (st : PortalState) :
    onSaveResult SaveResponse.failure st = { st with errorDisplay := true } ∧
    (onSaveResult SaveResponse.failure st).errorText = st.errorText ∧
    (onSaveResult SaveResponse.failure initialState).errorDisplay = true ∧
    (onSaveResult SaveResponse.failure initialState).errorText = "❌ エラー" :=
  ⟨rfl, rfl, rfl, rfl⟩

/-- C7: on a failed `/scan` fetch (network error or malformed response)
the handler restores the idle button label and re-enables the button,
and changes nothing else — in particular no banner is touched, so no
error is surfaced to the user. -/
theorem scan_failure_silent_reset (st : PortalState) :
    scanComplete ScanResponse.failure st
      = { st with scanBtnLabel := "WiFiをスキャン", scanBtnDisabled := false } :=
  rfl

/-- C8: once a scan is invoked, the button is disabled and its label
shows the scanning state; along any event trace that does not settle
the scan fetch, both persist, a further click on the scan button is a
no-op (so a second scan can never be triggered while one is in
flight), and the settlement of the fetch — fulfilled or rejected —
re-enables the button. -/
theorem scan_in_flight_guard (st : PortalState) (evs : List Event)
    (h : ∀ e ∈ evs, e.isScanResult = false) :
    (scanStart st).scanBtnDisabled = true ∧
    (scanStart st).scanBtnLabel = "スキャン中..." ∧
    (run evs (scanStart st)).scanBtnDisabled = true ∧
    (run evs (scanStart st)).scanBtnLabel = "スキャン中..." ∧
    step Event.scanClick (run evs (scanStart st))
      = run evs (scanStart st) ∧
    ∀ resp, (scanComplete resp
      (run evs (scanStart st))).scanBtnDisabled = false := by
  have hrun := run_preserves_scanning evs (scanStart st) h rfl
  refine ⟨rfl, rfl, hrun.1, hrun.2, ?_, ?_⟩
  · simp [step, hrun.1]
  · intro resp
    cases resp with
    | failure => rfl
    | ok networks => rfl

/-- C8 witness: along the concrete non-settling trace of a blocked
second click, a save settlement and a form submission, the button
stays disabled. -/
theorem scan_in_flight_guard_witness :
    (run [Event.scanClick,
          Event.saveResult (SaveResponse.ok true none),
          Event.formSubmit] (scanStart initialState)).scanBtnDisabled
      = true :=
  (scan_in_flight_guard initialState
    [Event.scanClick, Event.saveResult (SaveResponse.ok true none),
     Event.formSubmit] (by decide)).2.2.1

/-- C9: a well-formed scan response whose `networks` array is absent or
empty renders exactly the single placeholder row, which carries the
not-found text and no click handler. -/
theorem scan_empty_placeholder (st : PortalState)
    (networks : Option (List Network))
    (h : networks.getD [] = []) :
    (scanComplete (ScanResponse.ok networks) st).networksRows
      = [placeholderRow] ∧
    (scanComplete (ScanResponse.ok networks) st).networksRows.length = 1 ∧
    placeholderRow.innerHTML = "見つかりません" ∧
    placeholderRow.onclick = none := by
  rcases networks with _ | ns
  · exact ⟨rfl, rfl, rfl, rfl⟩
  · have hns : ns = [] := h
    subst hns
    exact ⟨rfl, rfl, rfl, rfl⟩

/-- C9 witness: a response with no `networks` field renders the single
placeholder row. -/
theorem scan_empty_placeholder_witness :
    (scanComplete (ScanResponse.ok none) initialState).networksRows
      = [placeholderRow] :=
  (scan_empty_placeholder initialState none rfl).1

/-- C10: both `/save` failure paths (`success=false` and transport
failure) touch only the error banner: the success banner's visibility
and every other component are unchanged, so a success banner shown by
an earlier submission stays visible alongside the error. -/
theorem save_failure_frame (st : PortalState) (m m2 : Option String) :
    ((onSaveResult (SaveResponse.ok false m) st).successDisplay
        = st.successDisplay ∧
      (onSaveResult (SaveResponse.ok false m) st).ssidField = st.ssidField ∧
      (onSaveResult (SaveResponse.ok false m) st).passwordField
        = st.passwordField ∧
      (onSaveResult (SaveResponse.ok false m) st).networksRows
        = st.networksRows ∧
      (onSaveResult (SaveResponse.ok false m) st).networksDisplay
        = st.networksDisplay ∧
      (onSaveResult (SaveResponse.ok false m) st).scanBtnLabel
        = st.scanBtnLabel ∧
      (onSaveResult (SaveResponse.ok false m) st).scanBtnDisabled
        = st.scanBtnDisabled) ∧
    (onSaveResult SaveResponse.failure st = { st with errorDisplay := true }) ∧
    ((onSaveResult (SaveResponse.ok false m2)
        (onSaveResult (SaveResponse.ok true m) st)).successDisplay = true ∧
      (onSaveResult (SaveResponse.ok false m2)
        (onSaveResult (SaveResponse.ok true m) st)).errorDisplay = true) ∧
    ((onSaveResult SaveResponse.failure
        (onSaveResult (SaveResponse.ok true m) st)).successDisplay = true ∧
      (onSaveResult SaveResponse.failure
        (onSaveResult (SaveResponse.ok true m) st)).errorDisplay = true) :=
  ⟨⟨rfl, rfl, rfl, rfl, rfl, rfl, rfl⟩, rfl, ⟨rfl, rfl⟩, ⟨rfl, rfl⟩⟩
